import Mathlib

/-!
Verification of the rustils library (Option / Result combinators ported from
Rust to TypeScript) against its natural-language specification.

The repository snapshot contains several historical versions of the two core
classes; the embedding models each version that the claims reference:

* `OptT`  — the truthiness-based `Option` of `src/src/option.ts`: the class
  stores only a payload slot and derives presence from JavaScript truthiness
  of the payload (`isSome` is `!!this.value`).
* `OptionH`  — the `hasSome`-discriminant `Option` (`src/unnamed/part_005`):
  the class stores the payload plus an explicit boolean discriminant.
* `ResultN`  — the null-derived `Result` of `src/src/result.ts` lines 1-112:
  two payload slots, no discriminant; its `isOk` getter is `!!this.ok` while
  the `ok` getter branches on `this.isOk` (a mutual recursion with no base
  case), so those operations are modelled with a fuel-indexed evaluator.
* `ResultH`  — the `hasOk`-discriminant `Result` of `src/src/result.ts`
  lines 113-633: payload slots plus an explicit `hasOk` boolean.

JavaScript runtime values are modelled by `JSVal` (the TypeScript type
parameters are erased at runtime, and the claims need falsy values such as
`0`, `""`, `false` and `null`).  Thrown values are modelled by `JSThrow`, and
fallible operations return `Except JSThrow JSVal`.
-/

/-- Model of the JavaScript runtime values the library manipulates: `null`,
`undefined`, booleans, (integer) numbers and strings. -/
inductive JSVal where
  | vnull
  | vundef
  | vbool (b : Bool)
  | vnum (n : Int)
  | vstr (s : String)
deriving DecidableEq, Repr

/-- JavaScript truthiness: `null`, `undefined`, `false`, `0` and `""` are
falsy, everything else modelled here is truthy.  This is what `!!x` and the
condition of `x ? a : b` evaluate for a `JSVal`. -/
def JSVal.truthy : JSVal → Bool
  | .vnull => false
  | .vundef => false
  | .vbool b => b
  | .vnum n => n != 0
  | .vstr s => s != ""

/-- Model of a thrown JavaScript value.  `errObj msg` is `throw new
Error(msg)` (with `errObj ""` for the argumentless `new Error()`);
`typeErr` is the `TypeError` raised by calling `.toString()` on `null` or
`undefined`; `rawVal v` is `throw v` for a non-Error value `v`. -/
inductive JSThrow where
  | errObj (msg : String)
  | typeErr
  | rawVal (v : JSVal)
deriving DecidableEq, Repr

/-- Model of JavaScript `x.toString()` on a `JSVal`: works on booleans,
numbers and strings, raises a `TypeError` on `null` and `undefined`. -/
def JSVal.toStr : JSVal → Except JSThrow String
  | .vnull => .error .typeErr
  | .vundef => .error .typeErr
  | .vbool b => .ok (if b then "true" else "false")
  | .vnum n => .ok (toString n)
  | .vstr s => .ok s

/-- The truthiness-based `Option` class of `src/src/option.ts`: a single
protected slot `value`; presence is derived from the payload's truthiness. -/
structure OptT where
  value : JSVal
deriving DecidableEq, Repr

/-- Factory `Some` of `src/src/option.ts`: `new Option<T>(value)`. -/
def SomeT (value : JSVal) : OptT := ⟨value⟩

/-- Factory `None` of `src/src/option.ts`: `new Option<any>(null)`. -/
def NoneT : OptT := ⟨JSVal.vnull⟩

/-- The `hasSome`-discriminant `Option` class of `src/unnamed/part_005`:
payload slot `value` plus explicit boolean discriminant `hasSome`. -/
structure OptionH where
  value : JSVal
  hasSome : Bool
deriving DecidableEq, Repr

/-- Factory `Some` of the `hasSome` version: `new Option<T>(value, true)`. -/
def SomeH (value : JSVal) : OptionH := ⟨value, true⟩

/-- Factory `None` of the `hasSome` version: `new Option<any>(null, false)`. -/
def NoneH : OptionH := ⟨JSVal.vnull, false⟩

/-- The null-derived `Result` class of `src/src/result.ts` lines 1-112:
slots `value` and `error`, no discriminant. -/
structure ResultN where
  value : JSVal
  error : JSVal
deriving DecidableEq, Repr

/-- Factory `Ok` of the null-derived version: `new Result(value, null)`. -/
def OkN (value : JSVal) : ResultN := ⟨value, JSVal.vnull⟩

/-- Factory `Err` of the null-derived version: `new Result(null, error)`. -/
def ErrN (error : JSVal) : ResultN := ⟨JSVal.vnull, error⟩

/-- The `hasOk`-discriminant `Result` class of `src/src/result.ts` lines
113-633: slots `value` and `error` plus explicit boolean `hasOk`. -/
structure ResultH where
  value : JSVal
  error : JSVal
  hasOk : Bool
deriving DecidableEq, Repr

/-- Factory `Ok` of the `hasOk` version: `new Result<T, any>(value, null, true)`. -/
def OkH (value : JSVal) : ResultH := ⟨value, JSVal.vnull, true⟩

/-- Factory `Err` of the `hasOk` version: `new Result<any, E>(null, error, false)`. -/
def ErrH (error : JSVal) : ResultH := ⟨JSVal.vnull, error, false⟩

/-- Getter `isSome` of `src/src/option.ts`: `!!this.value`. -/
def OptT.isSome (o : OptT) : Bool := o.value.truthy

/-- Getter `isNone` of `src/src/option.ts`: `!this.value`. -/
def OptT.isNone (o : OptT) : Bool := !o.value.truthy

/-- Method `expect` of `src/src/option.ts`: return the value when `isSome`,
otherwise `throw new Error(str)`. -/
def OptT.expect (o : OptT) (str : String) : Except JSThrow JSVal :=
  if o.isSome then .ok o.value else .error (.errObj str)

/-- Method `unwrap` of `src/src/option.ts`: return the value when `isSome`,
otherwise `throw new Error()`. -/
def OptT.unwrap (o : OptT) : Except JSThrow JSVal :=
  if o.isSome then .ok o.value else .error (.errObj "")

/-- Method `unwrapOr` of `src/src/option.ts`. -/
def OptT.unwrapOr (o : OptT) (d : JSVal) : JSVal :=
  if o.isSome then o.value else d

/-- Method `unwrapOrElse` of `src/src/option.ts`. -/
def OptT.unwrapOrElse (o : OptT) (cb : Unit → JSVal) : JSVal :=
  if o.isSome then o.value else cb ()

/-- Method `map` of `src/src/option.ts`: `Some(cb(this.value))` when present,
otherwise the receiver itself is returned (cast to `Option<U>`). -/
def OptT.map (o : OptT) (cb : JSVal → JSVal) : OptT :=
  if o.isSome then SomeT (cb o.value) else o

/-- Method `mapOr` of `src/src/option.ts`. -/
def OptT.mapOr (o : OptT) (d : JSVal) (cb : JSVal → JSVal) : JSVal :=
  if o.isSome then cb o.value else d

/-- Method `mapOrElse` of `src/src/option.ts`. -/
def OptT.mapOrElse (o : OptT) (d : Unit → JSVal) (cb : JSVal → JSVal) : JSVal :=
  if o.isSome then cb o.value else d ()

/-- Method `match` of `src/src/option.ts`; the matcher object is passed as
its two handler functions `Some` and `None`. -/
def OptT.match' (o : OptT) (mSome : JSVal → JSVal) (mNone : Unit → JSVal) : JSVal :=
  if o.isSome then mSome o.value else mNone ()

/-- Method `okOr` of `src/src/option.ts`; builds the `Result` of the same
era (the null-derived `ResultN`). -/
def OptT.okOr (o : OptT) (err : JSVal) : ResultN :=
  if o.isSome then OkN o.value else ErrN err

/-- Method `okOrElse` of `src/src/option.ts`. -/
def OptT.okOrElse (o : OptT) (err : Unit → JSVal) : ResultN :=
  if o.isSome then OkN o.value else ErrN (err ())

/-- Method `and` of `src/src/option.ts`: `optb` when present, otherwise the
receiver itself. -/
def OptT.and (o : OptT) (optb : OptT) : OptT :=
  if o.isSome then optb else o

/-- Method `andThen` of `src/src/option.ts`: `cb(this.value)` when present,
otherwise the receiver itself. -/
def OptT.andThen (o : OptT) (cb : JSVal → OptT) : OptT :=
  if o.isSome then cb o.value else o

/-- Method `or` of `src/src/option.ts`: the receiver when present, otherwise
`optb`. -/
def OptT.or (o : OptT) (optb : OptT) : OptT :=
  if o.isSome then o else optb

/-- Method `orElse` of `src/src/option.ts`. -/
def OptT.orElse (o : OptT) (cb : Unit → OptT) : OptT :=
  if o.isSome then o else cb ()

/-- Observable content of a truthiness-based `Option`: the payload when it is
truthy (the only state `isSome` reports as present), `none` otherwise.  Two
`OptT` values with the same projection are indistinguishable by the
public operations. -/
def OptT.proj (o : OptT) : Option JSVal :=
  if o.value.truthy then some o.value else none

/-- Getter `isSome` of the `hasSome` version: `this.hasSome`. -/
def OptionH.isSome (o : OptionH) : Bool := o.hasSome

/-- Getter `isNone` of the `hasSome` version: `!this.hasSome`. -/
def OptionH.isNone (o : OptionH) : Bool := !o.hasSome

/-- Method `expect` of the `hasSome` version. -/
def OptionH.expect (o : OptionH) (msg : String) : Except JSThrow JSVal :=
  if o.hasSome then .ok o.value else .error (.errObj msg)

/-- Method `unwrap` of the `hasSome` version: the value when `hasSome`,
otherwise `throw new Error()`. -/
def OptionH.unwrap (o : OptionH) : Except JSThrow JSVal :=
  if o.hasSome then .ok o.value else .error (.errObj "")

/-- Method `unwrapOr` of the `hasSome` version. -/
def OptionH.unwrapOr (o : OptionH) (d : JSVal) : JSVal :=
  if o.hasSome then o.value else d

/-- Method `unwrapOrElse` of the `hasSome` version. -/
def OptionH.unwrapOrElse (o : OptionH) (cb : Unit → JSVal) : JSVal :=
  if o.hasSome then o.value else cb ()

/-- Method `map` of the `hasSome` version. -/
def OptionH.map (o : OptionH) (cb : JSVal → JSVal) : OptionH :=
  if o.hasSome then SomeH (cb o.value) else o

/-- Method `mapOr` of the `hasSome` version. -/
def OptionH.mapOr (o : OptionH) (d : JSVal) (cb : JSVal → JSVal) : JSVal :=
  if o.hasSome then cb o.value else d

/-- Method `mapOrElse` of the `hasSome` version. -/
def OptionH.mapOrElse (o : OptionH) (d : Unit → JSVal) (cb : JSVal → JSVal) : JSVal :=
  if o.hasSome then cb o.value else d ()

/-- Method `match` of the `hasSome` version. -/
def OptionH.match' (o : OptionH) (mSome : JSVal → JSVal) (mNone : Unit → JSVal) : JSVal :=
  if o.hasSome then mSome o.value else mNone ()

/-- Method `okOr` of the `hasSome` version; builds the `Result` of the same
era (the `hasOk`-discriminant `ResultH`). -/
def OptionH.okOr (o : OptionH) (err : JSVal) : ResultH :=
  if o.hasSome then OkH o.value else ErrH err

/-- Method `okOrElse` of the `hasSome` version. -/
def OptionH.okOrElse (o : OptionH) (err : Unit → JSVal) : ResultH :=
  if o.hasSome then OkH o.value else ErrH (err ())

/-- Method `and` of the `hasSome` version. -/
def OptionH.and (o : OptionH) (optb : OptionH) : OptionH :=
  if o.hasSome then optb else o

/-- Method `andThen` of the `hasSome` version (`src/unnamed/part_005` lines
737-741): `cb(this.value)` when present, otherwise the receiver itself. -/
def OptionH.andThen (o : OptionH) (cb : JSVal → OptionH) : OptionH :=
  if o.hasSome then cb o.value else o

/-- Method `or` of the `hasSome` version. -/
def OptionH.or (o : OptionH) (optb : OptionH) : OptionH :=
  if o.hasSome then o else optb

/-- Method `orElse` of the `hasSome` version. -/
def OptionH.orElse (o : OptionH) (cb : Unit → OptionH) : OptionH :=
  if o.hasSome then o else cb ()

/-!
Operations of the null-derived `Result` (`src/src/result.ts` lines 1-112).

In that version `get isOk()` is `!!this.ok` while `get ok()` is
`this.isOk ? Some(this.value) : None()`: each getter strictly evaluates the
other first, so the evaluation never reaches a base case.  The pair, and
every method whose body consults `this.isOk`, is therefore modelled by a
fuel-indexed evaluator: `none` means the evaluation did not finish within
the given fuel.  (A JavaScript object is always truthy, hence the `!!` in
`isOk` would yield `true` if its operand ever became available.)
-/

mutual

/-- Getter `isOk` of the null-derived version: `!!this.ok`; it first needs
the value of the `ok` getter. -/
def ResultN.isOkF (r : ResultN) : Nat → Option Bool
  | 0 => none
  | n+1 => (ResultN.okF r n).map (fun _ => true)

/-- Getter `ok` of the null-derived version:
`this.isOk ? Some(this.value) : None()`; it first needs the value of the
`isOk` getter. -/
def ResultN.okF (r : ResultN) : Nat → Option OptT
  | 0 => none
  | n+1 => (ResultN.isOkF r n).map (fun b => if b then SomeT r.value else NoneT)

end

/-- Getter `isErr` of the null-derived version: `!!this.error` (terminates). -/
def ResultN.isErr (r : ResultN) : Bool := r.error.truthy

/-- Getter `err` of the null-derived version:
`this.isErr ? Some(this.error) : None()` (terminates). -/
def ResultN.err (r : ResultN) : OptT :=
  if r.isErr then SomeT r.error else NoneT

/-- Method `map` of the null-derived version, fuelled because it consults
`this.isOk`: `Ok(cb(this.value))` when ok, otherwise the receiver itself. -/
def ResultN.mapF (r : ResultN) (cb : JSVal → JSVal) : Nat → Option ResultN
  | 0 => none
  | n+1 => (r.isOkF n).map (fun b => if b then OkN (cb r.value) else r)

/-- Method `match` of the null-derived version, fuelled; the matcher object
is passed as its two handler functions `Ok` and `Err`. -/
def ResultN.matchF (r : ResultN) (mOk mErr : JSVal → JSVal) : Nat → Option JSVal
  | 0 => none
  | n+1 => (r.isOkF n).map (fun b => if b then mOk r.value else mErr r.error)

/-- Method `and` of the null-derived version, fuelled. -/
def ResultN.andF (r : ResultN) (res : ResultN) : Nat → Option ResultN
  | 0 => none
  | n+1 => (r.isOkF n).map (fun b => if b then res else r)

/-- Method `andThen` of the null-derived version, fuelled. -/
def ResultN.andThenF (r : ResultN) (cb : JSVal → ResultN) : Nat → Option ResultN
  | 0 => none
  | n+1 => (r.isOkF n).map (fun b => if b then cb r.value else r)

/-- Method `or` of the null-derived version, fuelled. -/
def ResultN.orF (r : ResultN) (res : ResultN) : Nat → Option ResultN
  | 0 => none
  | n+1 => (r.isOkF n).map (fun b => if b then r else res)

/-- Method `orElse` of the null-derived version, fuelled. -/
def ResultN.orElseF (r : ResultN) (cb : JSVal → ResultN) : Nat → Option ResultN
  | 0 => none
  | n+1 => (r.isOkF n).map (fun b => if b then r else cb r.error)

/-- Method `unwrapOr` of the null-derived version, fuelled. -/
def ResultN.unwrapOrF (r : ResultN) (optb : JSVal) : Nat → Option JSVal
  | 0 => none
  | n+1 => (r.isOkF n).map (fun b => if b then r.value else optb)

/-- Method `unwrapOrElse` of the null-derived version, fuelled. -/
def ResultN.unwrapOrElseF (r : ResultN) (cb : JSVal → JSVal) : Nat → Option JSVal
  | 0 => none
  | n+1 => (r.isOkF n).map (fun b => if b then r.value else cb r.error)

/-- Method `unwrap` of the null-derived version, fuelled: the value when ok,
otherwise `throw this.error` (the raw error value). -/
def ResultN.unwrapF (r : ResultN) : Nat → Option (Except JSThrow JSVal)
  | 0 => none
  | n+1 => (r.isOkF n).map
      (fun b => if b then .ok r.value else .error (.rawVal r.error))

/-- Method `expect` of the null-derived version, fuelled: the value when ok,
otherwise `throw new Error(msg + ": " + this.error.toString())`. -/
def ResultN.expectF (r : ResultN) (msg : String) : Nat → Option (Except JSThrow JSVal)
  | 0 => none
  | n+1 => (r.isOkF n).map
      (fun b =>
        if b then .ok r.value
        else
          match r.error.toStr with
          | .ok s => .error (.errObj (msg ++ ": " ++ s))
          | .error t => .error t)

/-- Getter `ok` of the `hasOk` version: `this.hasOk ? Some(this.value) :
None()`, building the `hasSome`-discriminant `Option` of the same era. -/
def ResultH.ok (r : ResultH) : OptionH :=
  if r.hasOk then SomeH r.value else NoneH

/-- Getter `err` of the `hasOk` version: `!this.hasOk ? Some(this.error) :
None()`. -/
def ResultH.err (r : ResultH) : OptionH :=
  if !r.hasOk then SomeH r.error else NoneH

/-- Getter `isOk` of the `hasOk` version: `this.hasOk`. -/
def ResultH.isOk (r : ResultH) : Bool := r.hasOk

/-- Getter `isErr` of the `hasOk` version: `!this.hasOk`. -/
def ResultH.isErr (r : ResultH) : Bool := !r.hasOk

/-- Method `map` of the `hasOk` version. -/
def ResultH.map (r : ResultH) (cb : JSVal → JSVal) : ResultH :=
  if r.hasOk then OkH (cb r.value) else r

/-- Method `mapErr` of the `hasOk` version. -/
def ResultH.mapErr (r : ResultH) (cb : JSVal → JSVal) : ResultH :=
  if r.hasOk then r else ErrH (cb r.error)

/-- Method `match` of the `hasOk` version; the matcher object is passed as
its two handler functions `Ok` and `Err`. -/
def ResultH.match' (r : ResultH) (mOk mErr : JSVal → JSVal) : JSVal :=
  if r.hasOk then mOk r.value else mErr r.error

/-- Method `and` of the `hasOk` version. -/
def ResultH.and (r : ResultH) (res : ResultH) : ResultH :=
  if r.hasOk then res else r

/-- Method `andThen` of the `hasOk` version. -/
def ResultH.andThen (r : ResultH) (cb : JSVal → ResultH) : ResultH :=
  if r.hasOk then cb r.value else r

/-- Method `or` of the `hasOk` version. -/
def ResultH.or (r : ResultH) (res : ResultH) : ResultH :=
  if r.hasOk then r else res

/-- Method `orElse` of the `hasOk` version. -/
def ResultH.orElse (r : ResultH) (cb : JSVal → ResultH) : ResultH :=
  if r.hasOk then r else cb r.error

/-- Method `unwrapOr` of the `hasOk` version. -/
def ResultH.unwrapOr (r : ResultH) (optb : JSVal) : JSVal :=
  if r.hasOk then r.value else optb

/-- Method `unwrapOrElse` of the `hasOk` version. -/
def ResultH.unwrapOrElse (r : ResultH) (cb : JSVal → JSVal) : JSVal :=
  if r.hasOk then r.value else cb r.error

/-- Method `unwrap` of the `hasOk` version (`src/src/result.ts` lines
577-583): the value when `hasOk`, otherwise
`throw new Error(this.error.toString())` — the error is stringified into an
`Error` message, and `.toString()` on a `null` error raises a `TypeError`. -/
def ResultH.unwrap (r : ResultH) : Except JSThrow JSVal :=
  if r.hasOk then .ok r.value
  else
    match r.error.toStr with
    | .ok s => .error (.errObj s)
    | .error t => .error t

/-- Method `unwrapErr` of the `hasOk` version (`src/src/result.ts` lines
603-609): the error when `isErr`, otherwise
`throw new Error(this.value.toString())`. -/
def ResultH.unwrapErr (r : ResultH) : Except JSThrow JSVal :=
  if r.isErr then .ok r.error
  else
    match r.value.toStr with
    | .ok s => .error (.errObj s)
    | .error t => .error t

/-- Method `expect` of the `hasOk` version (`src/src/result.ts` lines
627-633): the value when `hasOk`, otherwise
`throw new Error(msg + ": " + this.error.toString())`. -/
def ResultH.expect (r : ResultH) (msg : String) : Except JSThrow JSVal :=
  if r.hasOk then .ok r.value
  else
    match r.error.toStr with
    | .ok s => .error (.errObj (msg ++ ": " ++ s))
    | .error t => .error t

/-- Helper: the mutually recursive `isOk` / `ok` getter pair of the
null-derived `Result` never produces a value, at any fuel. -/
theorem ResultN.isOkF_okF_none (r : ResultN) :
    ∀ n : Nat, r.isOkF n = none ∧ r.okF n = none := by
  intro n
  induction n with
  | zero => exact ⟨rfl, rfl⟩
  | succ n ih =>
    refine ⟨?_, ?_⟩
    · show (ResultN.okF r n).map (fun _ => true) = none
      rw [ih.2]; rfl
    · show (ResultN.isOkF r n).map _ = none
      rw [ih.1]; rfl

/-- Claim C1: construction roundtrip.  In the `hasSome`-discriminant version
the roundtrip holds for every value `v`: `Some(v).isSome` is true,
`Some(v).unwrap()` returns `v`, and `None().isNone` is true.  In the
truthiness version of `src/src/option.ts` the same claim fails at the falsy
payload `0`: `Some(0).isSome` is `false` and `Some(0).unwrap()` throws an
empty `Error` — the code slip the specification flags as a latent
correctness bug. -/
theorem c1_construction_roundtrip_eval :
    (∀ v : JSVal, (SomeH v).isSome = true ∧ (SomeH v).unwrap = Except.ok v)
    ∧ NoneH.isNone = true
    ∧ (SomeT (JSVal.vnum 0)).isSome = false
    ∧ (SomeT (JSVal.vnum 0)).unwrap = Except.error (JSThrow.errObj "") := by
  refine ⟨fun v => ⟨rfl, rfl⟩, rfl, by decide, ?_⟩
  simp [OptT.unwrap, OptT.isSome, SomeT, JSVal.truthy]

/-- Claim C2: in the truthiness-based `Option` of `src/src/option.ts`, a
present value that is falsy is indistinguishable from absence: for every
falsy `v`, `Some(v)` and `None()` agree under every public operation
(operations returning an `Option` are compared through the observable
projection `OptT.proj`, under which the two are indistinguishable). -/
theorem c2_falsy_some_equals_none
    (v : JSVal) (hv : v.truthy = false)
    (s : String) (d : JSVal) (f : Unit → JSVal) (g : JSVal → JSVal)
    (d2 : Unit → JSVal) (e : JSVal) (es : Unit → JSVal)
    (b : OptT) (k : JSVal → OptT) (sup : Unit → OptT)
    (mS : JSVal → JSVal) (mN : Unit → JSVal) :
    (SomeT v).isSome = NoneT.isSome
    ∧ (SomeT v).isNone = NoneT.isNone
    ∧ (SomeT v).expect s = NoneT.expect s
    ∧ (SomeT v).unwrap = NoneT.unwrap
    ∧ (SomeT v).unwrapOr d = NoneT.unwrapOr d
    ∧ (SomeT v).unwrapOrElse f = NoneT.unwrapOrElse f
    ∧ ((SomeT v).map g).proj = (NoneT.map g).proj
    ∧ (SomeT v).mapOr d g = NoneT.mapOr d g
    ∧ (SomeT v).mapOrElse d2 g = NoneT.mapOrElse d2 g
    ∧ (SomeT v).match' mS mN = NoneT.match' mS mN
    ∧ (SomeT v).okOr e = NoneT.okOr e
    ∧ (SomeT v).okOrElse es = NoneT.okOrElse es
    ∧ ((SomeT v).and b).proj = (NoneT.and b).proj
    ∧ ((SomeT v).andThen k).proj = (NoneT.andThen k).proj
    ∧ (SomeT v).or b = NoneT.or b
    ∧ (SomeT v).orElse sup = NoneT.orElse sup := by
  have hvn : JSVal.vnull.truthy = false := rfl
  simp [OptT.isSome, OptT.isNone, OptT.expect, OptT.unwrap, OptT.unwrapOr,
    OptT.unwrapOrElse, OptT.map, OptT.mapOr, OptT.mapOrElse, OptT.match',
    OptT.okOr, OptT.okOrElse, OptT.and, OptT.andThen, OptT.or, OptT.orElse,
    OptT.proj, hv, hvn, SomeT, NoneT]

/-- Claim C2 witness: the equivalence instantiated at the concrete falsy
payload `0`, picking the `unwrap` observation. -/
theorem c2_falsy_witness :
    (SomeT (JSVal.vnum 0)).unwrap = NoneT.unwrap :=
  (c2_falsy_some_equals_none (JSVal.vnum 0) (by decide) "m" (JSVal.vnum 1)
    (fun _ => JSVal.vnum 2) (fun x => x) (fun _ => JSVal.vnum 3)
    (JSVal.vstr "e") (fun _ => JSVal.vstr "e") (SomeT (JSVal.vnum 7))
    (fun x => SomeT x) (fun _ => NoneT) (fun x => x)
    (fun _ => JSVal.vnum 9)).2.2.2.1

/-- Claim C3: in the null-derived `Result` of `src/src/result.ts` lines
1-112, the `isOk` getter and the `ok` getter are mutually recursive with no
base case, so `isOk` — and every operation that consults it: `ok`, `map`,
`match`, `and`, `andThen`, `or`, `orElse`, `unwrapOr`, `unwrapOrElse`,
`unwrap` and `expect` — never terminates on any instance: the fuel-indexed
evaluator yields no result at any fuel. -/
theorem c3_null_derived_isok_diverges :
    ∀ (r : ResultN) (n : Nat) (cb : JSVal → JSVal) (mOk mErr : JSVal → JSVal)
      (s : ResultN) (k : JSVal → ResultN) (d : JSVal) (g : JSVal → JSVal)
      (msg : String),
      r.isOkF n = none ∧ r.okF n = none ∧ r.mapF cb n = none
      ∧ r.matchF mOk mErr n = none ∧ r.andF s n = none
      ∧ r.andThenF k n = none ∧ r.orF s n = none ∧ r.orElseF k n = none
      ∧ r.unwrapOrF d n = none ∧ r.unwrapOrElseF g n = none
      ∧ r.unwrapF n = none ∧ r.expectF msg n = none := by
  intro r n cb mOk mErr s k d g msg
  cases n with
  | zero => exact ⟨rfl, rfl, rfl, rfl, rfl, rfl, rfl, rfl, rfl, rfl, rfl, rfl⟩
  | succ m =>
    have h := ResultN.isOkF_okF_none r m
    simp [ResultN.isOkF, ResultN.okF, ResultN.mapF, ResultN.matchF,
      ResultN.andF, ResultN.andThenF, ResultN.orF, ResultN.orElseF,
      ResultN.unwrapOrF, ResultN.unwrapOrElseF, ResultN.unwrapF,
      ResultN.expectF, h.1, h.2]

/-- Claim C4: mutual exclusivity and joint exhaustiveness of the state
predicates.  It holds for every `hasOk`-discriminant `Result` and for every
`Option` of both versions; but in the null-derived `Result` cited by the
claim, `isOk` never terminates (here evaluated on `Ok(5)`), so no boolean is
produced at all and the exactly-one property fails there. -/
theorem c4_exactly_one_discriminant :
    (∀ n : Nat, (OkN (JSVal.vnum 5)).isOkF n = none)
    ∧ (∀ r : ResultH,
        (r.isOk = true ∧ r.isErr = false) ∨ (r.isOk = false ∧ r.isErr = true))
    ∧ (∀ o : OptT,
        (o.isSome = true ∧ o.isNone = false) ∨ (o.isSome = false ∧ o.isNone = true))
    ∧ (∀ o : OptionH,
        (o.isSome = true ∧ o.isNone = false) ∨ (o.isSome = false ∧ o.isNone = true)) := by
  refine ⟨fun n => (ResultN.isOkF_okF_none (OkN (JSVal.vnum 5)) n).1, ?_, ?_, ?_⟩
  · intro r
    cases h : r.hasOk
    · right; simp [ResultH.isOk, ResultH.isErr, h]
    · left; simp [ResultH.isOk, ResultH.isErr, h]
  · intro o
    cases h : o.value.truthy
    · right; simp [OptT.isSome, OptT.isNone, h]
    · left; simp [OptT.isSome, OptT.isNone, h]
  · intro o
    cases h : o.hasSome
    · right; simp [OptionH.isSome, OptionH.isNone, h]
    · left; simp [OptionH.isSome, OptionH.isNone, h]

/-- Claim C5 counterexample: `success(5).unwrapErr()` in the `hasOk` version
throws `new Error(this.value.toString())`, i.e. an `Error` object carrying
the stringified value `"5"` — not the raw value `5` the claim describes. -/
theorem c5_unwrap_counterexample :
    (OkH (JSVal.vnum 5)).unwrapErr = Except.error (JSThrow.errObj "5")
    ∧ JSThrow.errObj "5" ≠ JSThrow.rawVal (JSVal.vnum 5) :=
  ⟨rfl, by decide⟩

/-- Claim C5 as amended: `absent().unwrap()` throws an empty `Error`;
`failure("boom").unwrap()` throws an `Error` whose message is the
stringified failure value `"boom"`; `success(5).unwrapErr()` throws an
`Error` whose message is the stringified success value `"5"` (the `hasOk`
version stringifies the payload into an `Error` for both `unwrap` and
`unwrapErr` rather than throwing the raw value); on the other variant each
operation returns the wrapped value without throwing. -/
theorem c5_unwrap_scenarios :
    NoneH.unwrap = Except.error (JSThrow.errObj "")
    ∧ (ErrH (JSVal.vstr "boom")).unwrap = Except.error (JSThrow.errObj "boom")
    ∧ (OkH (JSVal.vnum 5)).unwrapErr = Except.error (JSThrow.errObj "5")
    ∧ (∀ v : JSVal, (SomeH v).unwrap = Except.ok v)
    ∧ (∀ v : JSVal, (OkH v).unwrap = Except.ok v)
    ∧ (∀ e : JSVal, (ErrH e).unwrapErr = Except.ok e) :=
  ⟨rfl, rfl, rfl, fun _ => rfl, fun _ => rfl, fun _ => rfl⟩

/-- Claim C6: short-circuit laws of `or` and `and`.  In the truthiness
version, for every `a` that is present (`isSome`), `a.or(b)` is `a` itself
and `a.and(b)` is `b`; for every absent `a`, `a.or(b)` is `b` and
`a.and(b)` is `a` itself; and in the `hasSome`-discriminant version the
same laws hold with presence given by the constructors. -/
theorem c6_or_and_short_circuit (a b : OptT) (v : JSVal) (c : OptionH) :
    (a.isSome = true → a.or b = a ∧ a.and b = b)
    ∧ (a.isSome = false → a.or b = b ∧ a.and b = a)
    ∧ ((SomeH v).or c = SomeH v ∧ (SomeH v).and c = c
       ∧ NoneH.or c = c ∧ NoneH.and c = NoneH) := by
  refine ⟨fun h => ?_, fun h => ?_, rfl, rfl, rfl, rfl⟩ <;>
    simp [OptT.or, OptT.and, h]

/-- Claim C6 witness: the short-circuit laws at the concrete present option
`Some(5)` with `None()` as the other operand. -/
theorem c6_short_circuit_witness :
    (SomeT (JSVal.vnum 5)).or NoneT = SomeT (JSVal.vnum 5)
    ∧ (SomeT (JSVal.vnum 5)).and NoneT = NoneT :=
  (c6_or_and_short_circuit (SomeT (JSVal.vnum 5)) NoneT (JSVal.vnum 0)
    NoneH).1 (by decide)

/-- Claim C7: left identity of the monadic bind.  In the
`hasSome`-discriminant version, `Some(v).andThen(f)` equals `f(v)` for every
`v` and `f`, and `None().andThen(f)` returns the absent receiver itself
without invoking `f` (in both versions).  In the truthiness version of
`src/src/option.ts` the law fails at the falsy payload `0`:
`Some(0).andThen(f)` returns `Some(0)` itself instead of `f(0)`. -/
theorem c7_bind_left_identity_eval :
    (∀ (v : JSVal) (f : JSVal → OptionH), (SomeH v).andThen f = f v)
    ∧ (∀ f : JSVal → OptionH, NoneH.andThen f = NoneH)
    ∧ (∀ f : JSVal → OptT, NoneT.andThen f = NoneT)
    ∧ (SomeT (JSVal.vnum 0)).andThen (fun _ => SomeT (JSVal.vnum 1))
        = SomeT (JSVal.vnum 0)
    ∧ SomeT (JSVal.vnum 0) ≠ SomeT (JSVal.vnum 1) :=
  ⟨fun _ _ => rfl, fun _ => rfl, fun _ => rfl, by decide, by decide⟩

/-- Claim C8: `okOr` / `okOrElse` roundtrip.  In the `hasSome`-discriminant
version `Some(v).okOr(e)` is `Ok(v)` and `None().okOr(e)` is `Err(e)` for
all `v`, `e`, and `okOrElse` behaves identically with the supplier's result,
the present case being independent of the supplier.  In the truthiness
version the concrete instances at the truthy payload `5` hold, but the
universal claim fails at the falsy payload `0`: `Some(0).okOr("e")` is
`Err("e")`, not `Ok(0)`. -/
theorem c8_okor_roundtrip_eval :
    (∀ v e : JSVal, (SomeH v).okOr e = OkH v)
    ∧ (∀ e : JSVal, NoneH.okOr e = ErrH e)
    ∧ (∀ (v : JSVal) (f : Unit → JSVal), (SomeH v).okOrElse f = OkH v)
    ∧ (∀ f : Unit → JSVal, NoneH.okOrElse f = ErrH (f ()))
    ∧ (SomeT (JSVal.vnum 5)).okOr (JSVal.vstr "e") = OkN (JSVal.vnum 5)
    ∧ NoneT.okOr (JSVal.vstr "e") = ErrN (JSVal.vstr "e")
    ∧ (SomeT (JSVal.vnum 0)).okOr (JSVal.vstr "e") = ErrN (JSVal.vstr "e") :=
  ⟨fun _ _ => rfl, fun _ => rfl, fun _ _ => rfl, fun _ => rfl,
    by decide, rfl, by decide⟩

/-- Claim C9: Outcome-to-Optional conversion.  In the `hasOk` version,
`success(v).ok` is `present(v)`, `success(v).err` is `absent()`,
`failure(e).ok` is `absent()` and `failure(e).err` is `present(e)` for all
`v` and `e`.  In the null-derived version cited by the claim, the `ok`
getter consults the divergent `isOk` and never terminates (here evaluated on
`Ok(5)`). -/
theorem c9_outcome_to_optional_eval :
    (∀ v : JSVal, (OkH v).ok = SomeH v ∧ (OkH v).err = NoneH)
    ∧ (∀ e : JSVal, (ErrH e).ok = NoneH ∧ (ErrH e).err = SomeH e)
    ∧ (∀ n : Nat, (OkN (JSVal.vnum 5)).okF n = none) :=
  ⟨fun _ => ⟨rfl, rfl⟩, fun _ => ⟨rfl, rfl⟩,
    fun n => (ResultN.isOkF_okF_none (OkN (JSVal.vnum 5)) n).2⟩

/-- Claim C10: `expect` of the `hasOk` version returns the success value on
every `success(v)`, and on `failure(e)` throws an `Error` whose message is
the custom message, `": "`, and the stringified error; but on a `null`
error payload the stringification itself raises a `TypeError`, so the code
fails internally instead of producing the stable placeholder the claim
requires. -/
theorem c10_expect_eval :
    (∀ (v : JSVal) (m : String), (OkH v).expect m = Except.ok v)
    ∧ (ErrH (JSVal.vstr "boom")).expect "m" = Except.error (JSThrow.errObj "m: boom")
    ∧ (ErrH JSVal.vnull).expect "m" = Except.error JSThrow.typeErr :=
  ⟨fun _ _ => rfl, rfl, rfl⟩
